import Mathlib

/-!
Verification of the `ufo` benchmark reporting pipeline.

This file gives a shallow embedding of the two command-line tools of the
repository (`benchmark_assay/visualize_benchmark.py`, the Chart Renderer, and
`benchmark_assay/generate_benchmark_notebook.py`, the Notebook Emitter), and
proves or refutes the frozen specification claims about them.

Modelling conventions:
* numeric CSV columns are rationals (`ℚ`); validator counts are integers;
* a pandas `DataFrame` is a `BenchmarkTable`: a list of rows plus two flags
  recording whether the optional `configuration` / `validators` columns are
  present (column presence is a table-level fact in pandas);
* filesystem reads are a function `String → FileState`;
* `sys.exit`, printing and directory/file creation are recorded in a
  `RunOutcome` value;
* pandas `sort_values` is modelled with `List.insertionSort` (a total sort on
  the same keys);
* matplotlib calls are modelled by recording, per saved figure, the data
  series passed to each `plot`/`bar` call.
-/

namespace Bench

/-- One row of the benchmark CSV.  The seven metric columns
(`block_time, tps, latency_ms, cpu_usage, memory_usage, blocks_produced,
avg_tx_per_block`) are always present; the values of `configuration` and
`validators` are only meaningful when the table carries those columns. -/
structure BenchmarkRow where
  block_time : ℚ
  tps : ℚ
  latency_ms : ℚ
  cpu_usage : ℚ
  memory_usage : ℚ
  blocks_produced : ℚ
  avg_tx_per_block : ℚ
  configuration : String
  validators : Int
deriving DecidableEq, Repr

/-- A parsed CSV table: the rows plus presence flags for the two optional
columns (`configuration`, `validators`). -/
structure BenchmarkTable where
  rows : List BenchmarkRow
  hasConfiguration : Bool
  hasValidators : Bool
deriving DecidableEq, Repr

/-- State of a path on disk, as seen by the loaders. -/
inductive FileState where
  | missing
  | parsed (df : BenchmarkTable)

/-- Externally visible effects of one tool invocation: the process exit code,
the lines printed, and the directories/files created, in order. -/
structure RunOutcome where
  exitCode : Nat
  printed : List String
  dirsCreated : List String
  filesWritten : List String
deriving DecidableEq, Repr

/-- The `COLORS` table from `visualize_benchmark.py` (lines 18-29): fixed
ConfigKey-to-color table. -/
def COLORS : List (String × String) :=
  [ ("fauxmosis-comet-1", "#ff7f0e")
  , ("fauxmosis-comet-4", "#ff9a41")
  , ("fauxmosis-ufo-1", "#d62728")
  , ("fauxmosis-ufo-4", "#ff6b6b")
  , ("osmosis-ufo-bridged-1", "#2ca02c")
  , ("osmosis-ufo-bridged-4", "#5fd35f")
  , ("osmosis-ufo-patched-1", "#9467bd")
  , ("osmosis-ufo-patched-4", "#b589dc")
  , ("osmosis-comet-1", "#1f77b4")
  , ("osmosis-comet-4", "#5aa7d4") ]

/-- The `CONFIG_LABELS` table from `visualize_benchmark.py` (lines 32-43): fixed
ConfigKey-to-display-name table. -/
def CONFIG_LABELS : List (String × String) :=
  [ ("fauxmosis-comet-1", "Fauxmosis+CometBFT (1 validator)")
  , ("fauxmosis-comet-4", "Fauxmosis+CometBFT (4 validators)")
  , ("fauxmosis-ufo-1", "Fauxmosis+UFO (1 validator)")
  , ("fauxmosis-ufo-4", "Fauxmosis+UFO (4 validators)")
  , ("osmosis-ufo-bridged-1", "Osmosis+UFO Bridged (1 validator)")
  , ("osmosis-ufo-bridged-4", "Osmosis+UFO Bridged (4 validators)")
  , ("osmosis-ufo-patched-1", "Osmosis+UFO Patched (1 validator)")
  , ("osmosis-ufo-patched-4", "Osmosis+UFO Patched (4 validators)")
  , ("osmosis-comet-1", "Osmosis+CometBFT (1 validator)")
  , ("osmosis-comet-4", "Osmosis+CometBFT (4 validators)") ]

/-- Function `read_data` of `visualize_benchmark.py` (lines 53-72): exit 1 printing an
error naming the path when the file is missing, exit 1 when the parsed table
is empty, otherwise return the table. -/
def read_data (fs : String → FileState) (csv_file : String) :
    Except String BenchmarkTable :=
  match fs csv_file with
  | .missing => .error ("Error: CSV file not found: " ++ csv_file)
  | .parsed df =>
      if df.rows.isEmpty then .error ("Error: CSV file is empty")
      else .ok df

/-! ### Single-configuration mode (`create_single_config_visualizations`) -/

/-- Row order used by `df.sort_values('block_time')` (line 79). -/
def rowLe (a b : BenchmarkRow) : Prop := a.block_time ≤ b.block_time

instance : DecidableRel rowLe :=
  fun a b => inferInstanceAs (Decidable (a.block_time ≤ b.block_time))

instance : IsTotal BenchmarkRow rowLe := ⟨fun a b => le_total a.block_time b.block_time⟩

instance : IsTrans BenchmarkRow rowLe := ⟨fun _ _ _ h1 h2 => le_trans h1 h2⟩

/-- Line 79: `df = df.sort_values('block_time')`. -/
def sortByBlockTime (rows : List BenchmarkRow) : List BenchmarkRow :=
  List.insertionSort rowLe rows

/-- The metric a panel plots against block time.  `efficiency` (TPS/CPU) is
the derived ratio that appears in the Notebook Emitter's cells; it is part of
the vocabulary so that claims about it can be stated. -/
inductive Metric where
  | tps
  | latency_ms
  | cpu_usage
  | memory_usage
  | blocks_produced
  | avg_tx_per_block
  | efficiency
deriving DecidableEq, Repr

/-- Column extraction for the six CSV metrics; `efficiency` is the derived
ratio TPS/CPU. -/
def metricOf : Metric → BenchmarkRow → ℚ
  | .tps, r => r.tps
  | .latency_ms, r => r.latency_ms
  | .cpu_usage, r => r.cpu_usage
  | .memory_usage, r => r.memory_usage
  | .blocks_produced, r => r.blocks_produced
  | .avg_tx_per_block, r => r.avg_tx_per_block
  | .efficiency, r => r.tps / r.cpu_usage

/-- One subplot of a single-configuration figure: the metric plotted and the
x/y data passed to the `plot` call. -/
structure Panel where
  metric : Metric
  xs : List ℚ
  ys : List ℚ
deriving DecidableEq, Repr

/-- Build the panel for one metric over the (sorted) table: x-values are the
`block_time` column, y-values the metric column. -/
def panelOf (df : List BenchmarkRow) (m : Metric) : Panel :=
  { metric := m, xs := df.map (·.block_time), ys := df.map (metricOf m) }

/-- The `combined_metrics.png` 2x2 figure (lines 153-192), as the ordered
list of `plot` calls: TPS, latency, CPU and memory overlaid on one axis, avg
tx/block. -/
def combined_metrics (df : List BenchmarkRow) : List Panel :=
  [ panelOf df .tps
  , panelOf df .latency_ms
  , panelOf df .cpu_usage
  , panelOf df .memory_usage
  , panelOf df .avg_tx_per_block ]

/-- The `performance_dashboard.png` figure (lines 194-247): a 2x3 grid whose
five axes plot TPS (spanning two cells), latency, CPU, memory and avg
tx/block — each a repeat of an individual metric chart at larger scale. -/
def performance_dashboard (df : List BenchmarkRow) : List Panel :=
  [ panelOf df .tps
  , panelOf df .latency_ms
  , panelOf df .cpu_usage
  , panelOf df .memory_usage
  , panelOf df .avg_tx_per_block ]

/-- Function `create_single_config_visualizations` (lines 74-249): sorts the table by
`block_time` and saves eight figures, in program order; each entry is the
saved file's name (inside the output directory) paired with the panels drawn
on that figure. -/
def create_single_config_visualizations (rows : List BenchmarkRow) :
    List (String × List Panel) :=
  let df := sortByBlockTime rows
  [ ("tps_vs_blocktime.png", [panelOf df .tps])
  , ("latency_vs_blocktime.png", [panelOf df .latency_ms])
  , ("cpu_vs_blocktime.png", [panelOf df .cpu_usage])
  , ("memory_vs_blocktime.png", [panelOf df .memory_usage])
  , ("blocks_vs_blocktime.png", [panelOf df .blocks_produced])
  , ("tx_per_block_vs_blocktime.png", [panelOf df .avg_tx_per_block])
  , ("combined_metrics.png", combined_metrics df)
  , ("performance_dashboard.png", performance_dashboard df) ]

/-! ### Comparative mode (`create_comparative_visualizations`) -/

/-- A row extended with the derived `config_type` column (ConfigKey). -/
structure CompRow extends BenchmarkRow where
  config_type : String
deriving DecidableEq, Repr

/-- Line 256: `df['config_type'] = df['configuration'] + '-' +
df['validators'].astype(str)`.  Accessing a missing column raises a
`KeyError` (`configuration` is evaluated first), before any figure is
saved. -/
def add_config_type (df : BenchmarkTable) : Except String (List CompRow) :=
  if df.hasConfiguration = false then
    .error ("KeyError: configuration")
  else if df.hasValidators = false then
    .error ("KeyError: validators")
  else
    .ok (df.rows.map (fun r =>
      { toBenchmarkRow := r
      , config_type := r.configuration ++ "-" ++ toString r.validators }))

/-- Row order used by `df.sort_values(['config_type', 'block_time'])`
(line 262): lexicographic on the ConfigKey, then block time. -/
def compLe (a b : CompRow) : Prop :=
  a.config_type < b.config_type ∨
    (a.config_type = b.config_type ∧ a.block_time ≤ b.block_time)

instance : DecidableRel compLe :=
  fun a b => inferInstanceAs (Decidable (a.config_type < b.config_type ∨
    (a.config_type = b.config_type ∧ a.block_time ≤ b.block_time)))

instance : IsTotal CompRow compLe := by
  constructor
  intro a b
  rcases lt_trichotomy a.config_type b.config_type with h | h | h
  · exact Or.inl (Or.inl h)
  · rcases le_total a.block_time b.block_time with hb | hb
    · exact Or.inl (Or.inr ⟨h, hb⟩)
    · exact Or.inr (Or.inr ⟨h.symm, hb⟩)
  · exact Or.inr (Or.inl h)

instance : IsTrans CompRow compLe := by
  constructor
  intro a b c hab hbc
  rcases hab with h1 | ⟨e1, l1⟩
  · rcases hbc with h2 | ⟨e2, l2⟩
    · exact Or.inl (lt_trans h1 h2)
    · exact Or.inl (e2 ▸ h1)
  · rcases hbc with h2 | ⟨e2, l2⟩
    · exact Or.inl (e1 ▸ h2)
    · exact Or.inr ⟨e1.trans e2, le_trans l1 l2⟩

/-- Line 262: `df = df.sort_values(['config_type', 'block_time'])`. -/
def sortComparative (rows : List CompRow) : List CompRow :=
  List.insertionSort compLe rows

/-- Pandas `Series.unique()`: the distinct values of a column in order of
first appearance. -/
def uniqueFirst : List String → List String
  | [] => []
  | a :: l => a :: uniqueFirst (l.filter (fun b => b != a))
termination_by l => l.length
decreasing_by
  simp only [List.length_cons]
  exact Nat.lt_succ_of_le (List.length_filter_le _ _)

/-- One line series of a comparative chart, with the `label=` and `color=`
arguments passed to `plot`: `label=CONFIG_LABELS.get(config, config)` and
`color=COLORS.get(config, None)` (`none` means matplotlib's default). -/
structure PlotSeries where
  label : String
  color : Option String
  xs : List ℚ
  ys : List ℚ
deriving DecidableEq, Repr

/-- The series plotted for one ConfigKey on a comparative chart
(e.g. lines 266-270): filter the sorted table to that `config_type`, plot the
metric against `block_time`, with label and color looked up with fallbacks. -/
def seriesForConfig (sorted : List CompRow) (m : Metric) (config : String) :
    PlotSeries :=
  let config_df := sorted.filter (fun r => r.config_type == config)
  { label := (CONFIG_LABELS.lookup config).getD config
  , color := COLORS.lookup config
  , xs := config_df.map (·.block_time)
  , ys := config_df.map (fun r => metricOf m r.toBenchmarkRow) }

/-- A comparative line chart: one series per ConfigKey in `configs`. -/
def comparisonChart (configs : List String) (sorted : List CompRow)
    (m : Metric) : List PlotSeries :=
  configs.map (seriesForConfig sorted m)

/-- Line 340: `representative_block_times = [1000, 100, 10]`. -/
def representative_block_times : List ℚ := [1000, 100, 10]

/-- Line 350: `df[df['block_time'].between(block_time*0.9, block_time*1.1)]`
— rows within the inclusive ±10% window of the sampled block time. -/
def betweenFilter (sorted : List CompRow) (bt : ℚ) : List CompRow :=
  sorted.filter (fun r =>
    decide (bt * (9 / 10) ≤ r.block_time) && decide (r.block_time ≤ bt * (11 / 10)))

/-- The bar drawn for one `(configuration, validators)` pair at one sampled
block time (lines 357-368): the `tps` of the first row of the
tolerance-filtered table matching the pair, or `0` when no row matches. -/
def barValue (sorted : List CompRow) (bt : ℚ) (config : String) (v : Int) : ℚ :=
  match (betweenFilter sorted bt).filter
      (fun r => r.configuration == config && r.validators == v) with
  | [] => 0
  | r :: _ => r.tps

/-- The bar heights of one validator-count group, one slot per configuration
type, in order. -/
def valsFor (sorted : List CompRow) (config_types : List String) (bt : ℚ)
    (v : Int) : List ℚ :=
  config_types.map (fun c => barValue sorted bt c v)

/-- The `validator_impact.png` figure (lines 337-387): for each
representative block time, the 1-validator and 4-validator bar groups. -/
def validator_impact_chart (sorted : List CompRow) :
    List (ℚ × List ℚ × List ℚ) :=
  let config_types := uniqueFirst (sorted.map (·.configuration))
  representative_block_times.map (fun bt =>
    (bt, valsFor sorted config_types bt 1, valsFor sorted config_types bt 4))

/-- Arithmetic mean of a column slice, as used by `Series.mean()`
(lines 431-432); the configurations it is applied to always have at least one
row. -/
def listMean (l : List ℚ) : ℚ := l.sum / (l.length : ℚ)

/-- Everything drawn by comparative mode, keyed by saved figure. -/
structure CompOutput where
  files : List String
  tps_comparison : List PlotSeries
  latency_comparison : List PlotSeries
  cpu_comparison : List PlotSeries
  memory_comparison : List PlotSeries
  validator_impact : List (ℚ × List ℚ × List ℚ)
  dashboard_tps : List PlotSeries
  dashboard_latency : List PlotSeries
  dashboard_avg_cpu : List ℚ
  dashboard_avg_mem : List ℚ
  dashboard_validator_impact : List ℚ × List ℚ
deriving DecidableEq, Repr

/-- Function `create_comparative_visualizations` (lines 251-491): derive `config_type`
(raising `KeyError` if a column is missing, before anything is saved), take
the ConfigKeys in first-appearance order, sort by (ConfigKey, block time),
then draw the four comparison charts, the validator-impact bars and the
dashboard, saving six figures in program order. -/
def create_comparative_visualizations (df : BenchmarkTable) :
    Except String CompOutput :=
  match add_config_type df with
  | .error e => .error e
  | .ok rows =>
      let configs := uniqueFirst (rows.map (·.config_type))
      let sorted := sortComparative rows
      let config_types := uniqueFirst (sorted.map (·.configuration))
      .ok
        { files :=
            [ "tps_comparison.png"
            , "latency_comparison.png"
            , "cpu_comparison.png"
            , "memory_comparison.png"
            , "validator_impact.png"
            , "comparative_dashboard.png" ]
        , tps_comparison := comparisonChart configs sorted .tps
        , latency_comparison := comparisonChart configs sorted .latency_ms
        , cpu_comparison := comparisonChart configs sorted .cpu_usage
        , memory_comparison := comparisonChart configs sorted .memory_usage
        , validator_impact := validator_impact_chart sorted
        , dashboard_tps := comparisonChart configs sorted .tps
        , dashboard_latency := comparisonChart configs sorted .latency_ms
        , dashboard_avg_cpu := configs.map (fun c =>
            listMean ((sorted.filter (fun r => r.config_type == c)).map (·.cpu_usage)))
        , dashboard_avg_mem := configs.map (fun c =>
            listMean ((sorted.filter (fun r => r.config_type == c)).map (·.memory_usage)))
        , dashboard_validator_impact :=
            (valsFor sorted config_types 100 1, valsFor sorted config_types 100 4) }

/-- Files saved by a comparative-mode run: none when it raised. -/
def writtenFiles (r : Except String CompOutput) : List String :=
  match r with
  | .error _ => []
  | .ok o => o.files

/-- Function `main` of `visualize_benchmark.py` (lines 493-507): read the data (exiting
on failure before the output directory exists), create the output directory,
then run the selected mode.  An uncaught `KeyError` in comparative mode ends
the process with a non-zero status after the directory was created but before
any figure was saved. -/
def vis_main (fs : String → FileState) (csv_file output_dir : String)
    (comparative : Bool) : RunOutcome :=
  match read_data fs csv_file with
  | .error msg =>
      { exitCode := 1, printed := [msg], dirsCreated := [], filesWritten := [] }
  | .ok df =>
      if comparative then
        match create_comparative_visualizations df with
        | .error e =>
            { exitCode := 1, printed := [e], dirsCreated := [output_dir]
            , filesWritten := [] }
        | .ok o =>
            { exitCode := 0
            , printed := ["Comparative visualizations created in " ++ output_dir]
            , dirsCreated := [output_dir]
            , filesWritten := o.files }
      else
        { exitCode := 0
        , printed := ["Visualizations created in " ++ output_dir]
        , dirsCreated := [output_dir]
        , filesWritten := (create_single_config_visualizations df.rows).map Prod.fst }

/-! ### Notebook Emitter (`generate_benchmark_notebook.py`) -/

/-- A notebook cell as built by `create_notebook_cell` (lines 26-38): a
markdown or code cell with its `source` lines.  The cell metadata is always
the empty dict, and a code cell always carries `execution_count = null` and
`outputs = []`, so these are not modelled. -/
inductive Cell where
  | markdown (source : List String)
  | code (source : List String)
deriving DecidableEq, Repr

/-- The library-import/setup code cell (lines 74-108). -/
def importsCell : Cell := .code
  [ "import pandas as pd\n"
  , "import matplotlib.pyplot as plt\n"
  , "import matplotlib.colors as mcolors\n"
  , "import numpy as np\n"
  , "import seaborn as sns\n"
  , "import os\n"
  , "\n"
  , "# Set up visualization style\n"
  , "plt.style.use('ggplot')\n"
  , "sns.set_theme(style=\"whitegrid\")\n"
  , "%matplotlib inline\n"
  , "plt.rcParams['figure.figsize'] = [12, 8]\n"
  , "\n"
  , "# Create visualizations directory for saving images\n"
  , "vis_dir = 'notebook_visualizations'\n"
  , "os.makedirs(vis_dir, exist_ok=True)\n"
  , "\n"
  , "# Define colors for different configurations\n"
  , "CONFIG_COLORS = \x7b\n"
  , "    'fauxmosis-comet': '#ff7f0e',\n"
  , "    'fauxmosis-ufo': '#d62728',\n"
  , "    'osmosis-ufo-bridged': '#2ca02c',\n"
  , "    'osmosis-ufo-patched': '#9467bd',\n"
  , "    'osmosis-comet': '#1f77b4',\n"
  , "\x7d\n"
  , "\n"
  , "CONFIG_NAMES = \x7b\n"
  , "    'fauxmosis-comet': 'Fauxmosis with CometBFT',\n"
  , "    'fauxmosis-ufo': 'Fauxmosis with UFO',\n"
  , "    'osmosis-ufo-bridged': 'Osmosis with UFO (Bridged)',\n"
  , "    'osmosis-ufo-patched': 'Osmosis with UFO (Patched)',\n"
  , "    'osmosis-comet': 'Osmosis with CometBFT',\n"
  , "\x7d" ]

/-- The per-configuration data exploration code cell (lines 129-137), only
present when the table has the `configuration`/`validators` columns. -/
def configExploreCell : Cell := .code
  [ "# Create a combined configuration+validators column for easier analysis\n"
  , "df['config_type'] = df['configuration'] + '-' + df['validators'].astype(str)\n"
  , "\n"
  , "# Show data for different configurations\n"
  , "for config in df['config_type'].unique():\n"
  , "    print(f\"\\nConfiguration: \x7bconfig\x7d\")\n"
  , "    print(df[df['config_type'] == config][['block_time', 'tps', 'latency_ms', 'cpu_usage', 'memory_usage']].describe())\n" ]

/-- The TPS comparison code cell (lines 145-171). -/
def tpsComparisonCell : Cell := .code
  [ "# Create TPS comparison visualization\n"
  , "plt.figure(figsize=(14, 8))\n"
  , "\n"
  , "# Create a color map for configurations\n"
  , "# Use the new recommended way to get colormaps\n"
  , "cmap = plt.colormaps['tab10']\n"
  , "color_dict = \x7bconfig: cmap(i % 10) for i, config in enumerate(sorted(df['config_type'].unique()))\x7d\n"
  , "\n"
  , "for config in sorted(df['config_type'].unique()):\n"
  , "    config_df = df[df['config_type'] == config]\n"
  , "    plt.plot(config_df['block_time'], config_df['tps'], 'o-', \n"
  , "             linewidth=2, label=CONFIG_NAMES.get(config, config),\n"
  , "             color=color_dict[config])\n"
  , "\n"
  , "plt.xscale('log')\n"
  , "plt.xlabel('Block Time (ms)', fontsize=12)\n"
  , "plt.ylabel('Transactions Per Second (TPS)', fontsize=12)\n"
  , "plt.title('TPS vs Block Time Comparison', fontsize=14)\n"
  , "plt.grid(True, which=\"both\", ls=\"-\", alpha=0.2)\n"
  , "plt.legend(fontsize=10)\n"
  , "plt.tight_layout()\n"
  , "\n"
  , "# Save the figure\n"
  , "plt.savefig(os.path.join(vis_dir, 'tps_comparison.png'), dpi=300, bbox_inches='tight')\n"
  , "plt.show()" ]

/-- The latency comparison code cell (lines 175-196). -/
def latencyComparisonCell : Cell := .code
  [ "# Create Latency comparison visualization\n"
  , "plt.figure(figsize=(14, 8))\n"
  , "\n"
  , "for config in sorted(df['config_type'].unique()):\n"
  , "    config_df = df[df['config_type'] == config]\n"
  , "    plt.plot(config_df['block_time'], config_df['latency_ms'], 'o-', \n"
  , "             linewidth=2, label=CONFIG_NAMES.get(config, config),\n"
  , "             color=color_dict[config])\n"
  , "\n"
  , "plt.xscale('log')\n"
  , "plt.xlabel('Block Time (ms)', fontsize=12)\n"
  , "plt.ylabel('Latency (ms)', fontsize=12)\n"
  , "plt.title('Latency vs Block Time Comparison', fontsize=14)\n"
  , "plt.grid(True, which=\"both\", ls=\"-\", alpha=0.2)\n"
  , "plt.legend(fontsize=10)\n"
  , "plt.tight_layout()\n"
  , "\n"
  , "# Save the figure\n"
  , "plt.savefig(os.path.join(vis_dir, 'latency_comparison.png'), dpi=300, bbox_inches='tight')\n"
  , "plt.show()" ]

/-- The CPU usage comparison code cell (lines 200-221). -/
def cpuComparisonCell : Cell := .code
  [ "# Create CPU usage comparison visualization\n"
  , "plt.figure(figsize=(14, 8))\n"
  , "\n"
  , "for config in sorted(df['config_type'].unique()):\n"
  , "    config_df = df[df['config_type'] == config]\n"
  , "    plt.plot(config_df['block_time'], config_df['cpu_usage'], 'o-', \n"
  , "             linewidth=2, label=CONFIG_NAMES.get(config, config),\n"
  , "             color=color_dict[config])\n"
  , "\n"
  , "plt.xscale('log')\n"
  , "plt.xlabel('Block Time (ms)', fontsize=12)\n"
  , "plt.ylabel('CPU Usage (%)', fontsize=12)\n"
  , "plt.title('CPU Usage vs Block Time Comparison', fontsize=14)\n"
  , "plt.grid(True, which=\"both\", ls=\"-\", alpha=0.2)\n"
  , "plt.legend(fontsize=10)\n"
  , "plt.tight_layout()\n"
  , "\n"
  , "# Save the figure\n"
  , "plt.savefig(os.path.join(vis_dir, 'cpu_comparison.png'), dpi=300, bbox_inches='tight')\n"
  , "plt.show()" ]

/-- The memory usage comparison code cell (lines 225-246). -/
def memoryComparisonCell : Cell := .code
  [ "# Create Memory usage comparison visualization\n"
  , "plt.figure(figsize=(14, 8))\n"
  , "\n"
  , "for config in sorted(df['config_type'].unique()):\n"
  , "    config_df = df[df['config_type'] == config]\n"
  , "    plt.plot(config_df['block_time'], config_df['memory_usage'], 'o-', \n"
  , "             linewidth=2, label=CONFIG_NAMES.get(config, config),\n"
  , "             color=color_dict[config])\n"
  , "\n"
  , "plt.xscale('log')\n"
  , "plt.xlabel('Block Time (ms)', fontsize=12)\n"
  , "plt.ylabel('Memory Usage (%)', fontsize=12)\n"
  , "plt.title('Memory Usage vs Block Time Comparison', fontsize=14)\n"
  , "plt.grid(True, which=\"both\", ls=\"-\", alpha=0.2)\n"
  , "plt.legend(fontsize=10)\n"
  , "plt.tight_layout()\n"
  , "\n"
  , "# Save the figure\n"
  , "plt.savefig(os.path.join(vis_dir, 'memory_comparison.png'), dpi=300, bbox_inches='tight')\n"
  , "plt.show()" ]

/-- The validator-count impact code cell (lines 250-280). -/
def validatorImpactCell : Cell := .code
  [ "# Analyze Impact of Validator Count\n"
  , "# Group by configuration and validators\n"
  , "validator_impact = df.groupby(['configuration', 'validators'])['tps'].mean().reset_index()\n"
  , "validator_impact = validator_impact.pivot(index='configuration', columns='validators', values='tps')\n"
  , "validator_impact['impact_pct'] = ((validator_impact[4] - validator_impact[1]) / validator_impact[1]) * 100\n"
  , "\n"
  , "print(\"Mean TPS by Configuration and Validator Count:\")\n"
  , "print(validator_impact)\n"
  , "\n"
  , "# Plot the impact\n"
  , "plt.figure(figsize=(10, 6))\n"
  , "bars = plt.bar(validator_impact.index, validator_impact['impact_pct'])\n"
  , "\n"
  , "# Color the bars based on positive/negative impact\n"
  , "for i, bar in enumerate(bars):\n"
  , "    if validator_impact['impact_pct'].iloc[i] < 0:\n"
  , "        bar.set_color('firebrick')\n"
  , "    else:\n"
  , "        bar.set_color('forestgreen')\n"
  , "\n"
  , "plt.axhline(y=0, color='black', linestyle='-', alpha=0.3)\n"
  , "plt.ylabel('% Change in TPS (1 → 4 validators)', fontsize=12)\n"
  , "plt.title('Impact of Increasing Validator Count from 1 to 4', fontsize=14)\n"
  , "plt.grid(True, axis='y', alpha=0.2)\n"
  , "plt.tight_layout()\n"
  , "\n"
  , "# Save the figure\n"
  , "plt.savefig(os.path.join(vis_dir, 'validator_impact.png'), dpi=300, bbox_inches='tight')\n"
  , "plt.show()" ]

/-- The comprehensive dashboard code cell (lines 284-395). -/
def dashboardCell : Cell := .code
  [ "# Create a comprehensive dashboard with all metrics\n"
  , "fig = plt.figure(figsize=(16, 20))\n"
  , "\n"
  , "# Use a more flexible GridSpec layout with more space between subplots\n"
  , "gs = fig.add_gridspec(4, 2, hspace=0.4, wspace=0.3)\n"
  , "\n"
  , "# TPS comparison (top left)\n"
  , "ax1 = fig.add_subplot(gs[0, 0])\n"
  , "for config in sorted(df['config_type'].unique()):\n"
  , "    config_df = df[df['config_type'] == config]\n"
  , "    ax1.plot(config_df['block_time'], config_df['tps'], 'o-', \n"
  , "             linewidth=2, label=CONFIG_NAMES.get(config, config),\n"
  , "             color=color_dict[config])\n"
  , "ax1.set_xscale('log')\n"
  , "ax1.set_xlabel('Block Time (ms)')\n"
  , "ax1.set_ylabel('TPS')\n"
  , "ax1.set_title('TPS vs Block Time')\n"
  , "ax1.grid(True, which=\"both\", ls=\"-\", alpha=0.2)\n"
  , "ax1.legend(fontsize=8)\n"
  , "\n"
  , "# Latency comparison (top right)\n"
  , "ax2 = fig.add_subplot(gs[0, 1])\n"
  , "for config in sorted(df['config_type'].unique()):\n"
  , "    config_df = df[df['config_type'] == config]\n"
  , "    ax2.plot(config_df['block_time'], config_df['latency_ms'], 'o-', \n"
  , "             linewidth=2, label=CONFIG_NAMES.get(config, config),\n"
  , "             color=color_dict[config])\n"
  , "ax2.set_xscale('log')\n"
  , "ax2.set_xlabel('Block Time (ms)')\n"
  , "ax2.set_ylabel('Latency (ms)')\n"
  , "ax2.set_title('Latency vs Block Time')\n"
  , "ax2.grid(True, which=\"both\", ls=\"-\", alpha=0.2)\n"
  , "ax2.legend(fontsize=8)\n"
  , "\n"
  , "# CPU usage (middle left)\n"
  , "ax3 = fig.add_subplot(gs[1, 0])\n"
  , "for config in sorted(df['config_type'].unique()):\n"
  , "    config_df = df[df['config_type'] == config]\n"
  , "    ax3.plot(config_df['block_time'], config_df['cpu_usage'], 'o-', \n"
  , "             linewidth=2, label=CONFIG_NAMES.get(config, config),\n"
  , "             color=color_dict[config])\n"
  , "ax3.set_xscale('log')\n"
  , "ax3.set_xlabel('Block Time (ms)')\n"
  , "ax3.set_ylabel('CPU Usage (%)')\n"
  , "ax3.set_title('CPU Usage vs Block Time')\n"
  , "ax3.grid(True, which=\"both\", ls=\"-\", alpha=0.2)\n"
  , "ax3.legend(fontsize=8)\n"
  , "\n"
  , "# Memory usage (middle right)\n"
  , "ax4 = fig.add_subplot(gs[1, 1])\n"
  , "for config in sorted(df['config_type'].unique()):\n"
  , "    config_df = df[df['config_type'] == config]\n"
  , "    ax4.plot(config_df['block_time'], config_df['memory_usage'], 'o-', \n"
  , "             linewidth=2, label=CONFIG_NAMES.get(config, config),\n"
  , "             color=color_dict[config])\n"
  , "ax4.set_xscale('log')\n"
  , "ax4.set_xlabel('Block Time (ms)')\n"
  , "ax4.set_ylabel('Memory Usage (%)')\n"
  , "ax4.set_title('Memory Usage vs Block Time')\n"
  , "ax4.grid(True, which=\"both\", ls=\"-\", alpha=0.2)\n"
  , "ax4.legend(fontsize=8)\n"
  , "\n"
  , "# TPS vs CPU Efficiency (bottom left)\n"
  , "ax5 = fig.add_subplot(gs[2, 0])\n"
  , "for config in sorted(df['config_type'].unique()):\n"
  , "    config_df = df[df['config_type'] == config]\n"
  , "    ax5.scatter(config_df['cpu_usage'], config_df['tps'], \n"
  , "              label=CONFIG_NAMES.get(config, config),\n"
  , "              color=color_dict[config], s=100, alpha=0.7)\n"
  , "ax5.set_xlabel('CPU Usage (%)')\n"
  , "ax5.set_ylabel('TPS')\n"
  , "ax5.set_title('Performance Efficiency (TPS vs CPU)')\n"
  , "ax5.grid(True, alpha=0.2)\n"
  , "ax5.legend(fontsize=8)\n"
  , "\n"
  , "# Memory vs TPS (bottom right)\n"
  , "ax6 = fig.add_subplot(gs[2, 1])\n"
  , "for config in sorted(df['config_type'].unique()):\n"
  , "    config_df = df[df['config_type'] == config]\n"
  , "    ax6.scatter(config_df['memory_usage'], config_df['tps'], \n"
  , "              label=CONFIG_NAMES.get(config, config),\n"
  , "              color=color_dict[config], s=100, alpha=0.7)\n"
  , "ax6.set_xlabel('Memory Usage (%)')\n"
  , "ax6.set_ylabel('TPS')\n"
  , "ax6.set_title('Performance Efficiency (TPS vs Memory)')\n"
  , "ax6.grid(True, alpha=0.2)\n"
  , "ax6.legend(fontsize=8)\n"
  , "\n"
  , "# Validator impact (bottom)\n"
  , "ax7 = fig.add_subplot(gs[3, :])\n"
  , "bars = ax7.bar(validator_impact.index, validator_impact['impact_pct'])\n"
  , "for i, bar in enumerate(bars):\n"
  , "    if validator_impact['impact_pct'].iloc[i] < 0:\n"
  , "        bar.set_color('firebrick')\n"
  , "    else:\n"
  , "        bar.set_color('forestgreen')\n"
  , "ax7.axhline(y=0, color='black', linestyle='-', alpha=0.3)\n"
  , "ax7.set_ylabel('% Change in TPS (1 → 4 validators)')\n"
  , "ax7.set_title('Impact of Increasing Validator Count from 1 to 4')\n"
  , "ax7.grid(True, axis='y', alpha=0.2)\n"
  , "\n"
  , "# Add a main title with fixed position instead of using tight_layout\n"
  , "fig.suptitle('UFO Performance Benchmark - Comprehensive Dashboard', fontsize=16, y=0.99)\n"
  , "\n"
  , "# Adjust the layout with specific padding to avoid warnings\n"
  , "fig.subplots_adjust(top=0.95, bottom=0.05, left=0.1, right=0.95)\n"
  , "\n"
  , "# Save the figure\n"
  , "plt.savefig(os.path.join(vis_dir, 'comparative_dashboard.png'), dpi=300, bbox_inches='tight')\n"
  , "plt.show()" ]

/-- The TPS-per-CPU efficiency code cell (lines 401-424). -/
def efficiencyCell : Cell := .code
  [ "# Performance Efficiency: TPS per CPU%\n"
  , "df['tps_per_cpu'] = df['tps'] / df['cpu_usage']\n"
  , "\n"
  , "fig, ax = plt.subplots(figsize=(14, 8))\n"
  , "\n"
  , "for config in sorted(df['config_type'].unique()):\n"
  , "    config_df = df[df['config_type'] == config]\n"
  , "    ax.plot(config_df['block_time'], config_df['tps_per_cpu'], 'o-', \n"
  , "            linewidth=2, label=CONFIG_NAMES.get(config, config),\n"
  , "            color=color_dict[config])\n"
  , "\n"
  , "ax.set_xscale('log')\n"
  , "ax.set_xlabel('Block Time (ms)', fontsize=12)\n"
  , "ax.set_ylabel('TPS per CPU % (Efficiency)', fontsize=12)\n"
  , "ax.set_title('Processing Efficiency vs Block Time', fontsize=14)\n"
  , "ax.grid(True, which=\"both\", ls=\"-\", alpha=0.2)\n"
  , "ax.legend(fontsize=10)\n"
  , "plt.tight_layout()\n"
  , "plt.show()\n"
  , "\n"
  , "# Save the figure\n"
  , "plt.savefig(os.path.join(vis_dir, 'efficiency_comparison.png'), dpi=300, bbox_inches='tight')" ]

/-- The memory-vs-TPS scatter code cell (lines 427-447). -/
def memoryVsTpsCell : Cell := .code
  [ "# Memory Utilization vs TPS\n"
  , "plt.figure(figsize=(14, 8))\n"
  , "\n"
  , "for config in sorted(df['config_type'].unique()):\n"
  , "    config_df = df[df['config_type'] == config]\n"
  , "    plt.scatter(config_df['tps'], config_df['memory_usage'], \n"
  , "                label=CONFIG_NAMES.get(config, config),\n"
  , "                color=color_dict[config], s=100, alpha=0.7)\n"
  , "\n"
  , "plt.xlabel('Transactions Per Second (TPS)', fontsize=12)\n"
  , "plt.ylabel('Memory Usage (%)', fontsize=12)\n"
  , "plt.title('Memory Usage vs TPS by Configuration', fontsize=14)\n"
  , "plt.grid(True, alpha=0.2)\n"
  , "plt.legend(fontsize=10)\n"
  , "plt.tight_layout()\n"
  , "plt.show()\n"
  , "\n"
  , "# Save the figure\n"
  , "plt.savefig(os.path.join(vis_dir, 'memory_vs_tps.png'), dpi=300, bbox_inches='tight')" ]

/-- The block-time heatmap code cell (lines 450-466). -/
def heatmapCell : Cell := .code
  [ "# Block Time Impact Heatmap\n"
  , "# Pivot the data to create a heatmap\n"
  , "heatmap_data = df.pivot_table(index='configuration', columns='block_time', values='tps')\n"
  , "\n"
  , "# Create the heatmap\n"
  , "plt.figure(figsize=(14, 8))\n"
  , "sns.heatmap(heatmap_data, annot=True, fmt='.1f', cmap='viridis', linewidths=.5)\n"
  , "plt.title('TPS by Configuration and Block Time', fontsize=14)\n"
  , "plt.ylabel('Configuration', fontsize=12)\n"
  , "plt.xlabel('Block Time (ms)', fontsize=12)\n"
  , "plt.tight_layout()\n"
  , "plt.show()\n"
  , "\n"
  , "# Save the figure\n"
  , "plt.savefig(os.path.join(vis_dir, 'blocktime_heatmap.png'), dpi=300, bbox_inches='tight')" ]

/-- The single-configuration TPS code cell (lines 470-484). -/
def singleTpsCell : Cell := .code
  [ "# Create TPS vs Block Time visualization\n"
  , "plt.figure(figsize=(14, 8))\n"
  , "plt.plot(df['block_time'], df['tps'], 'o-', linewidth=2, color='tab:blue')\n"
  , "plt.xscale('log')\n"
  , "plt.xlabel('Block Time (ms)', fontsize=12)\n"
  , "plt.ylabel('Transactions Per Second (TPS)', fontsize=12)\n"
  , "plt.title('TPS vs Block Time', fontsize=14)\n"
  , "plt.grid(True, which=\"both\", ls=\"-\", alpha=0.2)\n"
  , "plt.tight_layout()\n"
  , "\n"
  , "# Save the figure\n"
  , "plt.savefig(os.path.join(vis_dir, 'tps_vs_blocktime.png'), dpi=300, bbox_inches='tight')\n"
  , "plt.show()" ]

/-- The single-configuration latency code cell (lines 487-501). -/
def singleLatencyCell : Cell := .code
  [ "# Create Latency vs Block Time visualization\n"
  , "plt.figure(figsize=(14, 8))\n"
  , "plt.plot(df['block_time'], df['latency_ms'], 'o-', linewidth=2, color='tab:orange')\n"
  , "plt.xscale('log')\n"
  , "plt.xlabel('Block Time (ms)', fontsize=12)\n"
  , "plt.ylabel('Latency (ms)', fontsize=12)\n"
  , "plt.title('Latency vs Block Time', fontsize=14)\n"
  , "plt.grid(True, which=\"both\", ls=\"-\", alpha=0.2)\n"
  , "plt.tight_layout()\n"
  , "\n"
  , "# Save the figure\n"
  , "plt.savefig(os.path.join(vis_dir, 'latency_vs_blocktime.png'), dpi=300, bbox_inches='tight')\n"
  , "plt.show()" ]

/-- The single-configuration efficiency code cell (lines 504-520). -/
def singleEfficiencyCell : Cell := .code
  [ "# Calculate performance efficiency (TPS per CPU%)\n"
  , "df['tps_per_cpu'] = df['tps'] / df['cpu_usage']\n"
  , "\n"
  , "plt.figure(figsize=(14, 8))\n"
  , "plt.plot(df['block_time'], df['tps_per_cpu'], 'o-', linewidth=2, color='tab:green')\n"
  , "plt.xscale('log')\n"
  , "plt.xlabel('Block Time (ms)', fontsize=12)\n"
  , "plt.ylabel('TPS per CPU % (Efficiency)', fontsize=12)\n"
  , "plt.title('Processing Efficiency vs Block Time', fontsize=14)\n"
  , "plt.grid(True, which=\"both\", ls=\"-\", alpha=0.2)\n"
  , "plt.tight_layout()\n"
  , "plt.show()\n"
  , "\n"
  , "# Save the figure\n"
  , "plt.savefig(os.path.join(vis_dir, 'efficiency_vs_blocktime.png'), dpi=300, bbox_inches='tight')" ]

/-- The conclusion markdown cell (lines 535-547). -/
def conclusionCell : Cell := .markdown
  [ "## Conclusion\n\n"
  , "This notebook provides an analysis of the UFO benchmark results, comparing performance across different configurations "
  , "and block times. The visualizations show how transaction throughput, latency, and resource usage are affected by "
  , "block time settings and validator counts.\n\n"
  , "Key metrics to consider:\n\n"
  , "* **TPS (Transactions Per Second)**: Higher is better, indicates throughput\n"
  , "* **Latency**: Lower is better, indicates responsiveness\n"
  , "* **Resource Usage**: Lower CPU and memory usage for the same TPS indicates better efficiency\n"
  , "* **TPS per CPU %**: Higher is better, indicates better performance efficiency\n"
  , "\n"
  , "All visualizations are saved to the `notebook_visualizations` directory for reference." ]

/-- The markdown/code cells of the comparative branch (lines 143-466), in
append order. -/
def comparativeCells : List Cell :=
  [ .markdown ["### TPS Comparison\n\nComparing transactions per second (TPS) across different configurations and block times."]
  , tpsComparisonCell
  , .markdown ["### Latency Comparison\n\nComparing transaction latency across different configurations and block times."]
  , latencyComparisonCell
  , .markdown ["### CPU Usage Comparison\n\nComparing CPU utilization across different configurations and block times."]
  , cpuComparisonCell
  , .markdown ["### Memory Usage Comparison\n\nComparing memory utilization across different configurations and block times."]
  , memoryComparisonCell
  , .markdown ["### Validator Count Impact\n\nAnalyzing the impact of validator count on performance metrics."]
  , validatorImpactCell
  , .markdown ["### Comprehensive Dashboard\n\nA comprehensive view of all performance metrics."]
  , dashboardCell
  , .markdown ["## Interactive Analysis\n\nLet's create some additional interactive visualizations."]
  , efficiencyCell
  , memoryVsTpsCell
  , heatmapCell ]

/-- The cells of the single-configuration branch (lines 468-520), in append
order. -/
def singleModeCells : List Cell :=
  [ .markdown ["### TPS vs Block Time\n\nVisualization of transactions per second (TPS) at different block times."]
  , singleTpsCell
  , .markdown ["### Latency vs Block Time\n\nVisualization of transaction latency at different block times."]
  , singleLatencyCell
  , singleEfficiencyCell ]

/-- State of the optional report file for one Notebook Emitter invocation:
not supplied on the command line; supplied but no file at that path
(`os.path.exists` is false); supplied, existing, but reading raises (the
exception's message is `errMsg`); or supplied and readable with the given
full text. -/
inductive ReportState where
  | notSupplied
  | missing (path : String)
  | unreadableFile (path : String) (errMsg : String)
  | readable (path : String) (content : String)
deriving DecidableEq, Repr

/-- The report section of the notebook (lines 522-532): nothing when the
path is not supplied or does not exist; a header cell followed by the full
report text as one markdown cell when readable; the header followed by an
explanatory error cell when the file exists but reading fails. -/
def report_cells : ReportState → List Cell
  | .notSupplied => []
  | .missing _ => []
  | .unreadableFile _ e =>
      [ .markdown ["## Benchmark Report\n\nBelow is the full benchmark report."]
      , .markdown ["Error loading benchmark report: " ++ e] ]
  | .readable _ content =>
      [ .markdown ["## Benchmark Report\n\nBelow is the full benchmark report."]
      , .markdown [content] ]

/-- What `generate_notebook` produces: the returned notebook path, the
ordered cell list serialized into it, and the directories it created. -/
structure NotebookResult where
  path : String
  cells : List Cell
  dirsCreated : List String
deriving DecidableEq, Repr

/-- Function `generate_notebook` (lines 45-582): create the output and
visualization directories, build the ordered cell list (branching once on
whether the table has the `configuration`/`validators` columns and once on
the report file's state), and serialize it to
`output_dir/benchmark_analysis.ipynb`, returning that path.  The relative
CSV path interpolated into the load cell is passed in as `csv_rel_path`
(the source computes it with `os.path.relpath`). -/
def generate_notebook (df : BenchmarkTable) (output_dir : String)
    (report : ReportState) (run_name : Option String) (csv_rel_path : String) :
    NotebookResult :=
  let vis_dir := output_dir ++ "/notebook_visualizations"
  let notebook_path := output_dir ++ "/benchmark_analysis.ipynb"
  let has_config_columns := df.hasConfiguration && df.hasValidators
  let display_run_name := run_name.getD "Benchmark Analysis"
  let cells :=
    [ Cell.markdown
        [ "# " ++ display_run_name ++ "\n\n"
        , "This notebook provides an interactive analysis of UFO performance benchmark results. "
        , "It includes visualizations comparing different configurations and raw data for further analysis." ]
    , importsCell
    , Cell.markdown ["## Benchmark Data\n\nLet's load and explore the benchmark data."]
    , Cell.code
        [ "# Load benchmark data from CSV\n"
        , "df = pd.read_csv('" ++ csv_rel_path ++ "')\n"
        , "df.head()" ]
    , Cell.code
        [ "# Show basic statistics\n"
        , "df.describe()" ] ]
    ++ (if has_config_columns then [configExploreCell] else [])
    ++ [Cell.markdown ["## Visualizations\n\nLet's create visualizations to analyze the benchmark results."]]
    ++ (if has_config_columns then comparativeCells else singleModeCells)
    ++ report_cells report
    ++ [conclusionCell]
  { path := notebook_path
  , cells := cells
  , dirsCreated := [output_dir, vis_dir] }

/-- Function `read_data` of `generate_benchmark_notebook.py` (lines 40-43):
a bare `pd.read_csv` with no existence or emptiness check.  A missing file
makes `pd.read_csv` raise `FileNotFoundError`, which no caller catches: the
interpreter prints the traceback (whose message names the path) and the
process exits with status 1.  A zero-row table is returned as-is. -/
def nb_read_data (fs : String → FileState) (csv_file : String) :
    Except String BenchmarkTable :=
  match fs csv_file with
  | .missing =>
      .error ("FileNotFoundError: [Errno 2] No such file or directory: " ++ csv_file)
  | .parsed df => .ok df

/-- Function `main` of `generate_benchmark_notebook.py` (lines 584-600):
read the data (an uncaught exception ends the process with status 1 before
any directory is created), then generate the notebook and exit 0. -/
def nb_main (fs : String → FileState) (csv_file output_dir : String)
    (report : ReportState) (run_name : Option String) (csv_rel_path : String) :
    RunOutcome :=
  match nb_read_data fs csv_file with
  | .error msg =>
      { exitCode := 1, printed := [msg], dirsCreated := [], filesWritten := [] }
  | .ok df =>
      let nb := generate_notebook df output_dir report run_name csv_rel_path
      { exitCode := 0
      , printed :=
          [ "Jupyter notebook created at: " ++ nb.path
          , "Notebook created successfully. To view it, run:"
          , "jupyter notebook " ++ nb.path ]
      , dirsCreated := nb.dirsCreated
      , filesWritten := [nb.path] }

/-! ### Sample data used by witnesses and counterexamples -/

/-- A benchmark row with all metric columns populated. -/
def sampleRow : BenchmarkRow :=
  { block_time := 100, tps := 500, latency_ms := 20, cpu_usage := 30
  , memory_usage := 40, blocks_produced := 1000, avg_tx_per_block := 50
  , configuration := "osmosis-comet", validators := 1 }

/-- A second row for the same configuration with four validators. -/
def sampleRow4 : BenchmarkRow :=
  { block_time := 100, tps := 420, latency_ms := 25, cpu_usage := 35
  , memory_usage := 45, blocks_produced := 900, avg_tx_per_block := 42
  , configuration := "osmosis-comet", validators := 4 }

/-- A two-row table carrying the `configuration`/`validators` columns. -/
def sampleTable : BenchmarkTable :=
  { rows := [sampleRow, sampleRow4], hasConfiguration := true, hasValidators := true }

/-- A filesystem where every path is missing. -/
def missingFs : String → FileState := fun _ => .missing

/-- A filesystem where every path parses to a zero-row table. -/
def emptyTableFs : String → FileState :=
  fun _ => .parsed { rows := [], hasConfiguration := false, hasValidators := false }

/-- A comparative row derived from `sampleRow`. -/
def compSample : CompRow := { toBenchmarkRow := sampleRow, config_type := "osmosis-comet-1" }

/-- A comparative row at block time 95 with TPS 100. -/
def wRowA : CompRow :=
  { block_time := 95, tps := 100, latency_ms := 1, cpu_usage := 1
  , memory_usage := 1, blocks_produced := 1, avg_tx_per_block := 1
  , configuration := "osmosis-comet", validators := 1
  , config_type := "osmosis-comet-1" }

/-- A comparative row at block time 105 with TPS 500, same pair as `wRowA`. -/
def wRowB : CompRow :=
  { block_time := 105, tps := 500, latency_ms := 1, cpu_usage := 1
  , memory_usage := 1, blocks_produced := 1, avg_tx_per_block := 1
  , configuration := "osmosis-comet", validators := 1
  , config_type := "osmosis-comet-1" }

/-! ### Helper lemmas -/

/-- An association list lookup of a key none of whose entries carry it is
`none`. -/
theorem lookup_eq_none_of_forall (d : List (String × String)) (c : String)
    (h : ∀ p ∈ d, p.1 ≠ c) : d.lookup c = none := by
  induction d with
  | nil => rfl
  | cons p d ih =>
      have hp : p.1 ≠ c := h p (List.mem_cons_self _ _)
      have hc : (c == p.1) = false := beq_eq_false_iff_ne.mpr (Ne.symm hp)
      simp [List.lookup, hc]
      intro a b hab e
      exact h (a, b) (List.mem_cons_of_mem _ hab) e.symm

/-- Any cell of the report section appears among the produced notebook's
cells. -/
theorem mem_cells_of_mem_report_cells (df : BenchmarkTable) (outdir : String)
    (st : ReportState) (rn : Option String) (rel : String) (c : Cell)
    (hc : c ∈ report_cells st) :
    c ∈ (generate_notebook df outdir st rn rel).cells := by
  simp only [generate_notebook, List.mem_append]
  tauto

/-! ### The claims -/

/-- C1: for every table containing all required metric columns (which the
row type guarantees), single-configuration mode saves exactly eight image
files with the fixed names, in program order. -/
theorem C1_single_mode_writes_eight_files (rows : List BenchmarkRow) :
    (create_single_config_visualizations rows).map Prod.fst =
      [ "tps_vs_blocktime.png", "latency_vs_blocktime.png", "cpu_vs_blocktime.png"
      , "memory_vs_blocktime.png", "blocks_vs_blocktime.png"
      , "tx_per_block_vs_blocktime.png", "combined_metrics.png"
      , "performance_dashboard.png" ] := rfl

/-- C2 counterexample: the notebook tool, fed a parsed table with zero rows,
does not fail — it exits 0 and creates its output directories, contradicting
the claim that the zero-row fatal behaviour applies to the read step of both
command-line tools. -/
theorem C2_counterexample :
    (nb_main emptyTableFs "results.csv" "out" .notSupplied none "results.csv").exitCode = 0 ∧
    (nb_main emptyTableFs "results.csv" "out" .notSupplied none "results.csv").dirsCreated =
      ["out", "out/notebook_visualizations"] := by
  constructor <;> rfl

/-- C2 (amended): a nonexistent input path is fatal for both tools — exit
status 1, a printed error naming the path, no output directory created; the
zero-row fatal behaviour holds only for the visualizer, while the notebook
tool performs no emptiness check and completes with exit 0. -/
theorem C2_loader_fatal_errors (fs : String → FileState)
    (path outdir : String) (comparative : Bool) (report : ReportState)
    (rn : Option String) (rel : String) :
    (fs path = .missing →
      vis_main fs path outdir comparative =
        { exitCode := 1, printed := ["Error: CSV file not found: " ++ path]
        , dirsCreated := [], filesWritten := [] } ∧
      nb_main fs path outdir report rn rel =
        { exitCode := 1
        , printed := ["FileNotFoundError: [Errno 2] No such file or directory: " ++ path]
        , dirsCreated := [], filesWritten := [] }) ∧
    (∀ df, fs path = .parsed df → df.rows = [] →
      vis_main fs path outdir comparative =
        { exitCode := 1, printed := ["Error: CSV file is empty"]
        , dirsCreated := [], filesWritten := [] } ∧
      (nb_main fs path outdir report rn rel).exitCode = 0) := by
  constructor
  · intro h
    constructor
    · simp [vis_main, read_data, h]
    · simp [nb_main, nb_read_data, h]
  · intro df h hrows
    constructor
    · simp [vis_main, read_data, h, hrows]
    · simp [nb_main, nb_read_data, h]

/-- C2 witness: concrete instances of both fatal paths. -/
theorem C2_loader_fatal_errors_witness :
    vis_main missingFs "data.csv" "out" false =
      { exitCode := 1, printed := ["Error: CSV file not found: data.csv"]
      , dirsCreated := [], filesWritten := [] } ∧
    (nb_main missingFs "data.csv" "out" .notSupplied none "data.csv").exitCode = 1 ∧
    vis_main emptyTableFs "data.csv" "out" false =
      { exitCode := 1, printed := ["Error: CSV file is empty"]
      , dirsCreated := [], filesWritten := [] } :=
  ⟨((C2_loader_fatal_errors missingFs "data.csv" "out" false .notSupplied none
      "data.csv").1 rfl).1,
   by rw [((C2_loader_fatal_errors missingFs "data.csv" "out" false .notSupplied none
      "data.csv").1 rfl).2],
   ((C2_loader_fatal_errors emptyTableFs "data.csv" "out" false .notSupplied none
      "data.csv").2 { rows := [], hasConfiguration := false, hasValidators := false }
      rfl rfl).1⟩

/-- C3 counterexample: on a concrete table, the single-configuration
performance dashboard contains no TPS/CPU efficiency panel. -/
theorem C3_counterexample :
    Metric.efficiency ∉ (performance_dashboard (sortByBlockTime [sampleRow])).map Panel.metric := by
  decide

/-- C3 (amended): the 2x3 performance dashboard repeats exactly the five
individual metric plots — TPS (enlarged), latency, CPU, memory, avg
tx/block — and includes no derived TPS/CPU efficiency view. -/
theorem C3_dashboard_panels (df : List BenchmarkRow) :
    (performance_dashboard df).map Panel.metric =
      [ Metric.tps, Metric.latency_ms, Metric.cpu_usage, Metric.memory_usage
      , Metric.avg_tx_per_block ] ∧
    Metric.efficiency ∉ (performance_dashboard df).map Panel.metric := by
  refine ⟨rfl, ?_⟩
  intro h
  simp [performance_dashboard, panelOf] at h

/-- C4: a (configuration, validator-count) pair with no row inside the ±10%
window of the sampled block time contributes a zero-valued bar; every
configuration type keeps its bar slot (the bar list is index-aligned with
the configuration-type list), and the computation is total. -/
theorem C4_missing_pair_zero (rows : List CompRow) (bt : ℚ) (config : String)
    (v : Int)
    (h : ∀ r ∈ rows, r.configuration = config → r.validators = v →
      ¬(bt * (9 / 10) ≤ r.block_time ∧ r.block_time ≤ bt * (11 / 10))) :
    barValue (sortComparative rows) bt config v = 0 ∧
    ∀ (config_types : List String) (i : ℕ),
      (valsFor (sortComparative rows) config_types bt v)[i]? =
        (config_types[i]?).map (fun c => barValue (sortComparative rows) bt c v) := by
  constructor
  · have hempty : (betweenFilter (sortComparative rows) bt).filter
        (fun r => r.configuration == config && r.validators == v) = [] := by
      rw [List.filter_eq_nil_iff]
      intro r hr
      have hr1 : r ∈ sortComparative rows := (List.mem_filter.mp hr).1
      have hr2 := (List.mem_filter.mp hr).2
      have hrw : bt * (9 / 10) ≤ r.block_time ∧ r.block_time ≤ bt * (11 / 10) := by
        simpa using hr2
      have hmem : r ∈ rows := (List.perm_insertionSort compLe rows).subset hr1
      simp only [Bool.and_eq_true, beq_iff_eq, not_and]
      intro hcfg hval
      exact absurd hrw (h r hmem hcfg hval)
    simp only [barValue, hempty]
  · intro config_types i
    simp [valsFor]

/-- C4 witness: a pair absent from the window yields the zero bar. -/
theorem C4_missing_pair_zero_witness :
    barValue (sortComparative [compSample]) 1000 "fauxmosis-ufo" 4 = 0 :=
  (C4_missing_pair_zero [compSample] 1000 "fauxmosis-ufo" 4 (by decide)).1

/-- C5: the x-values passed to every line-plot call are non-decreasing —
single mode sorts the whole table by block time, comparative mode sorts by
(ConfigKey, block time) so each per-ConfigKey series is sorted too. -/
theorem C5_series_x_nondecreasing :
    (∀ (rows : List BenchmarkRow) (m : Metric),
      List.Sorted (· ≤ ·) (panelOf (sortByBlockTime rows) m).xs) ∧
    (∀ (rows : List CompRow) (m : Metric) (config : String),
      List.Sorted (· ≤ ·) (seriesForConfig (sortComparative rows) m config).xs) := by
  constructor
  · intro rows m
    show List.Sorted (· ≤ ·) ((sortByBlockTime rows).map (·.block_time))
    have h := List.sorted_insertionSort rowLe rows
    rw [List.Sorted, List.pairwise_map]
    exact h.imp (fun hab => hab)
  · intro rows m config
    show List.Sorted (· ≤ ·)
      (((sortComparative rows).filter (fun r => r.config_type == config)).map (·.block_time))
    have h := List.sorted_insertionSort compLe rows
    have hf : List.Sorted compLe
        ((sortComparative rows).filter (fun r => r.config_type == config)) :=
      h.filter _
    rw [List.Sorted, List.pairwise_map]
    refine hf.imp_of_mem ?_
    intro a b ha hb hab
    have ha' : a.config_type = config := by simpa using (List.mem_filter.mp ha).2
    have hb' : b.config_type = config := by simpa using (List.mem_filter.mp hb).2
    rcases hab with h1 | ⟨_, l1⟩
    · exact absurd (ha' ▸ hb' ▸ h1) (lt_irrefl _)
    · exact l1

/-- C6 counterexample: a supplied report path that does not exist on disk is
silently skipped — the produced notebook is identical to one generated with
no report supplied, so no explanatory markdown cell is emitted in its
place. -/
theorem C6_counterexample :
    generate_notebook sampleTable "out" (ReportState.missing "report.md") none "results.csv" =
      generate_notebook sampleTable "out" ReportState.notSupplied none "results.csv" ∧
    report_cells (ReportState.missing "report.md") = [] := ⟨rfl, rfl⟩

/-- C6 (amended): when the supplied report path exists and is readable its
full text is embedded verbatim as one markdown cell; when it exists but
reading fails an explanatory markdown cell is emitted in its place; when it
does not exist the report section is omitted entirely; in every case
generation completes and returns `output_dir/benchmark_analysis.ipynb`. -/
theorem C6_report_embedding (df : BenchmarkTable) (outdir : String)
    (st : ReportState) (rn : Option String) (rel : String) :
    (∀ p content, st = .readable p content →
      Cell.markdown [content] ∈ (generate_notebook df outdir st rn rel).cells) ∧
    (∀ p e, st = .unreadableFile p e →
      Cell.markdown ["Error loading benchmark report: " ++ e] ∈
        (generate_notebook df outdir st rn rel).cells) ∧
    (∀ p, st = .missing p →
      (generate_notebook df outdir st rn rel).cells =
        (generate_notebook df outdir .notSupplied rn rel).cells) ∧
    (generate_notebook df outdir st rn rel).path = outdir ++ "/benchmark_analysis.ipynb" := by
  refine ⟨?_, ?_, ?_, rfl⟩
  · intro p content hst
    subst hst
    exact mem_cells_of_mem_report_cells df outdir _ rn rel _
      (List.mem_cons_of_mem _ (List.mem_cons_self _ _))
  · intro p e hst
    subst hst
    exact mem_cells_of_mem_report_cells df outdir _ rn rel _
      (List.mem_cons_of_mem _ (List.mem_cons_self _ _))
  · intro p hst
    subst hst
    rfl

/-- C6 witness: a readable report's text appears verbatim as a markdown
cell of the produced notebook. -/
theorem C6_report_embedding_witness :
    Cell.markdown ["REPORT BODY"] ∈
      (generate_notebook sampleTable "out"
        (ReportState.readable "report.md" "REPORT BODY") none "results.csv").cells :=
  (C6_report_embedding sampleTable "out"
    (ReportState.readable "report.md" "REPORT BODY") none "results.csv").1
    "report.md" "REPORT BODY" rfl

/-- C7: every ConfigKey series of a comparative chart is styled by the two
fixed lookup tables — color `COLORS.get(key, None)` and legend label
`CONFIG_LABELS.get(key, key)` — with the stated fallbacks when the key is
absent. -/
theorem C7_lookup_fallbacks (sorted : List CompRow) (m : Metric)
    (configs : List String) (c : String) (hc : c ∈ configs) :
    seriesForConfig sorted m c ∈ comparisonChart configs sorted m ∧
    (seriesForConfig sorted m c).label = (CONFIG_LABELS.lookup c).getD c ∧
    (seriesForConfig sorted m c).color = COLORS.lookup c ∧
    ((∀ p ∈ CONFIG_LABELS, p.1 ≠ c) → (seriesForConfig sorted m c).label = c) ∧
    ((∀ p ∈ COLORS, p.1 ≠ c) → (seriesForConfig sorted m c).color = none) := by
  refine ⟨List.mem_map_of_mem _ hc, rfl, rfl, ?_, ?_⟩
  · intro h
    show (CONFIG_LABELS.lookup c).getD c = c
    rw [lookup_eq_none_of_forall CONFIG_LABELS c h]
    rfl
  · intro h
    show COLORS.lookup c = none
    exact lookup_eq_none_of_forall COLORS c h

/-- C7 witness: an unrecognized ConfigKey falls back to the default color
and to the raw key as its legend label. -/
theorem C7_lookup_fallbacks_witness :
    (seriesForConfig [] Metric.tps "mystery-0").label = "mystery-0" ∧
    (seriesForConfig [] Metric.tps "mystery-0").color = none :=
  ⟨(C7_lookup_fallbacks [] Metric.tps ["mystery-0"] "mystery-0"
      (by decide)).2.2.2.1 (by decide),
   (C7_lookup_fallbacks [] Metric.tps ["mystery-0"] "mystery-0"
      (by decide)).2.2.2.2 (by decide)⟩

/-- C8: a table carrying the `configuration` and `validators` columns makes
comparative mode succeed and save exactly the six fixed image files. -/
theorem C8_comparative_writes_six_files (df : BenchmarkTable)
    (h1 : df.hasConfiguration = true) (h2 : df.hasValidators = true) :
    ∃ out, create_comparative_visualizations df = Except.ok out ∧
      out.files =
        [ "tps_comparison.png", "latency_comparison.png", "cpu_comparison.png"
        , "memory_comparison.png", "validator_impact.png"
        , "comparative_dashboard.png" ] := by
  have hrows : add_config_type df = Except.ok (df.rows.map (fun r =>
      { toBenchmarkRow := r
      , config_type := r.configuration ++ "-" ++ toString r.validators })) := by
    simp [add_config_type, h1, h2]
  simp only [create_comparative_visualizations, hrows]
  exact ⟨_, rfl, rfl⟩

/-- C8 witness: the six files on a concrete comparative table. -/
theorem C8_comparative_writes_six_files_witness :
    ∃ out, create_comparative_visualizations sampleTable = Except.ok out ∧
      out.files =
        [ "tps_comparison.png", "latency_comparison.png", "cpu_comparison.png"
        , "memory_comparison.png", "validator_impact.png"
        , "comparative_dashboard.png" ] :=
  C8_comparative_writes_six_files sampleTable rfl rfl

/-- C9: a table lacking the `validators` (or `configuration`) column makes
comparative mode fail while deriving the ConfigKey — before the first chart
is saved — so no image file is written. -/
theorem C9_missing_column_fails_before_writes (df : BenchmarkTable)
    (h : df.hasValidators = false ∨ df.hasConfiguration = false) :
    (∃ e, add_config_type df = Except.error e ∧
      create_comparative_visualizations df = Except.error e) ∧
    writtenFiles (create_comparative_visualizations df) = [] := by
  have hadd : ∃ e, add_config_type df = Except.error e := by
    rcases h with h | h
    · by_cases hc : df.hasConfiguration = false
      · exact ⟨"KeyError: configuration", by simp [add_config_type, hc]⟩
      · exact ⟨"KeyError: validators", by simp [add_config_type, hc, h]⟩
    · exact ⟨"KeyError: configuration", by simp [add_config_type, h]⟩
  obtain ⟨e, he⟩ := hadd
  refine ⟨⟨e, he, ?_⟩, ?_⟩
  · simp only [create_comparative_visualizations, he]
  · simp only [writtenFiles, create_comparative_visualizations, he]

/-- C9 witness: a concrete table without the `validators` column yields an
error and writes nothing. -/
theorem C9_missing_column_fails_before_writes_witness :
    writtenFiles (create_comparative_visualizations
      { rows := [sampleRow], hasConfiguration := true, hasValidators := false }) = [] :=
  (C9_missing_column_fails_before_writes
    { rows := [sampleRow], hasConfiguration := true, hasValidators := false }
    (Or.inl rfl)).2

/-- C10: when several rows of the (ConfigKey, block-time)-sorted table match
a pair inside the tolerance window, the bar takes the `tps` of the first
matching row in that sorted order, not an aggregate. -/
theorem C10_bar_takes_first_matching_row (rows : List CompRow) (bt : ℚ)
    (config : String) (v : Int) (r : CompRow) (rest : List CompRow)
    (h : (betweenFilter (sortComparative rows) bt).filter
      (fun x => x.configuration == config && x.validators == v) = r :: rest) :
    barValue (sortComparative rows) bt config v = r.tps := by
  simp only [barValue, h]

/-- C10 witness: two matching rows with TPS 100 (earlier block time) and 500
(later): the bar is 100 — the first row's value, neither the mean 300 nor
the maximum 500. -/
theorem C10_bar_takes_first_matching_row_witness :
    barValue (sortComparative [wRowB, wRowA]) 100 "osmosis-comet" 1 = 100 ∧
    (100 : ℚ) ≠ (100 + 500) / 2 ∧ (100 : ℚ) ≠ 500 := by
  have hc : ¬ compLe wRowB wRowA := by
    norm_num [compLe, wRowA, wRowB]
  have hsort : sortComparative [wRowB, wRowA] = [wRowA, wRowB] := by
    simp only [sortComparative, List.insertionSort, List.orderedInsert]
    rw [if_neg hc]
  have hfilter : (betweenFilter (sortComparative [wRowB, wRowA]) 100).filter
      (fun x => x.configuration == "osmosis-comet" && x.validators == 1) =
        [wRowA, wRowB] := by
    rw [hsort]
    norm_num [betweenFilter, wRowA, wRowB, List.filter_cons]
  refine ⟨?_, by norm_num, by norm_num⟩
  exact C10_bar_takes_first_matching_row [wRowB, wRowA] 100 "osmosis-comet" 1
    wRowA [wRowB] hfilter

end Bench
